import Mathlib

/-!
Shallow embedding of the `processgpt_agent_utils` library: the Persistence
Gateway (`utils/database.py`), the Human Query Tool wait loop
(`tools/human_query_tool.py`), the Deterministic Code Tool entry point
(`tools/deterministic_code_tool.py`), the Decision-Table tool construction
(`tools/dmn_rule_tool.py`) and the adapter shutdown routine
(`tools/safe_tool_loader.py`).

Fallible Python calls are embedded as `Except Err` values.  A backend call
site that may be invoked several times is embedded as a stream
`Nat → Except Err β` giving the outcome of the i-th invocation of that
call; a call site invoked at most once is read at index 1.
-/

/-- Python exceptions, by the shapes the embedded code raises or observes. -/
inductive Err where
  | db (msg : String)
  | runtime (msg : String)
  | attributeError (ty attr : String)
  deriving DecidableEq, Repr

deriving instance DecidableEq for Except

/-- Rendering of an exception used in the `run failed: ...` messages. -/
def errToString : Err → String
  | .db m => m
  | .runtime m => m
  | .attributeError ty attr =>
      "AttributeError: " ++ ty ++ " object has no attribute " ++ attr

/-- Outcome of the retry loop of `_retry_sync` before fallback handling:
a success value, exhaustion carrying the last attempt's error (`last_err`),
or no attempt executed at all (`retries = 0`). -/
inductive RetryCore (α : Type) where
  | ok (v : α)
  | exhausted (e : Err)
  | noAttempt
  deriving DecidableEq, Repr

/-- One pass of the `for attempt in range(1, retries + 1)` loop of
`_retry_sync` (`database.py` lines 33-45), entered at attempt number
`attempt` with `rem` iterations left.  Returns the back-off delays slept
(one per failed attempt: `base * 2 ^ (attempt - 1) + jitter`, slept after
every failure including the final one) together with the loop outcome;
`exhausted e` carries the error of the last executed attempt. -/
def retryGo (fn : Nat → Except Err α) (jitter : Nat → ℚ) (base : ℚ) :
    Nat → Nat → List ℚ × RetryCore α
  | _, 0 => ([], .noAttempt)
  | attempt, rem + 1 =>
    match fn attempt with
    | .ok v => ([], .ok v)
    | .error e =>
      let d := base * 2 ^ (attempt - 1) + jitter attempt
      match retryGo fn jitter base (attempt + 1) rem with
      | (ds, .noAttempt) => (d :: ds, .exhausted e)
      | (ds, r) => (d :: ds, r)

/-- Embedding of `_retry_sync` (`database.py` lines 19-60): run `fn` up to `retries`
times; the first success is returned; after the final failure the fallback,
if supplied, is invoked once (its own error propagating), otherwise the
last error is re-raised; a loop that never ran raises the
`Unexpected state` RuntimeError. -/
def retrySync (fn : Nat → Except Err α) (jitter : Nat → ℚ) (base : ℚ)
    (retries : Nat) (fallback : Option (Except Err α)) : Except Err α :=
  match (retryGo fn jitter base 1 retries).2 with
  | .ok v => .ok v
  | .exhausted e =>
    match fallback with
    | none => .error e
    | some fb => fb
  | .noAttempt => .error (.runtime "Unexpected state in retrySync")

/-- The delays slept by `_retry_sync`, in order, one per failed attempt. -/
def retryDelays (fn : Nat → Except Err α) (jitter : Nat → ℚ) (base : ℚ)
    (retries : Nat) : List ℚ :=
  (retryGo fn jitter base 1 retries).1

lemma retryGo_zero (fn : Nat → Except Err α) (jitter : Nat → ℚ) (base : ℚ)
    (attempt : Nat) : retryGo fn jitter base attempt 0 = ([], .noAttempt) :=
  rfl

lemma retryGo_succ_ok (fn : Nat → Except Err α) (jitter : Nat → ℚ) (base : ℚ)
    (attempt rem : Nat) (v : α) (h : fn attempt = .ok v) :
    retryGo fn jitter base attempt (rem + 1) = ([], .ok v) := by
  simp [retryGo, h]

lemma retryGo_succ_err (fn : Nat → Except Err α) (jitter : Nat → ℚ) (base : ℚ)
    (attempt rem : Nat) (e : Err) (h : fn attempt = .error e) :
    retryGo fn jitter base attempt (rem + 1) =
      ((base * 2 ^ (attempt - 1) + jitter attempt) ::
          (retryGo fn jitter base (attempt + 1) rem).1,
        match (retryGo fn jitter base (attempt + 1) rem).2 with
        | .noAttempt => .exhausted e
        | r => r) := by
  rcases hrec : retryGo fn jitter base (attempt + 1) rem with ⟨ds, r⟩
  cases r <;> simp [retryGo, h, hrec]

/-- Full evaluation of the loop for the default `retries = 3`, by cases on
the three attempt outcomes. -/
lemma retryGo_three (fn : Nat → Except Err α) (jitter : Nat → ℚ) (base : ℚ) :
    retryGo fn jitter base 1 3 =
      match fn 1 with
      | .ok v => ([], .ok v)
      | .error _ =>
        match fn 2 with
        | .ok v => ([base + jitter 1], .ok v)
        | .error _ =>
          match fn 3 with
          | .ok v => ([base + jitter 1, base * 2 + jitter 2], .ok v)
          | .error e3 =>
            ([base + jitter 1, base * 2 + jitter 2, base * 4 + jitter 3],
              .exhausted e3) := by
  have h3 : (3 : Nat) = 2 + 1 := rfl
  have h2 : (2 : Nat) = 1 + 1 := rfl
  rcases h1 : fn 1 with e1 | v1
  · rcases hb : fn 2 with e2 | v2
    · rcases hc : fn 3 with e3 | v3
      · rw [h3, retryGo_succ_err fn jitter base 1 2 e1 h1]
        rw [show (1 + 1 : Nat) = 2 from rfl, h2,
          retryGo_succ_err fn jitter base 2 1 e2 hb]
        rw [show (2 + 1 : Nat) = 3 from rfl,
          retryGo_succ_err fn jitter base 3 0 e3 hc, retryGo_zero]
        simp [h1, hb, hc]
        ring_nf
        norm_num
      · rw [h3, retryGo_succ_err fn jitter base 1 2 e1 h1]
        rw [show (1 + 1 : Nat) = 2 from rfl, h2,
          retryGo_succ_err fn jitter base 2 1 e2 hb]
        rw [show (2 + 1 : Nat) = 3 from rfl,
          retryGo_succ_ok fn jitter base 3 0 v3 hc]
        simp [h1, hb, hc]
    · rw [h3, retryGo_succ_err fn jitter base 1 2 e1 h1]
      rw [show (1 + 1 : Nat) = 2 from rfl, h2,
        retryGo_succ_ok fn jitter base 2 1 v2 hb]
      simp [h1, hb]
  · rw [h3, retryGo_succ_ok fn jitter base 1 2 v1 h1]

/-- Python truthiness of an optional string: `None` and `""` are falsy. -/
def strTruthy : Option String → Bool
  | none => false
  | some s => s ≠ ""

/-- An `events` table row, restricted to the columns the embedded queries
inspect. -/
structure EventRow where
  jobId : String
  eventType : String
  timestamp : Int
  deriving DecidableEq, Repr

/-- Embedding of `save_event_sync` (`database.py` lines 152-187): builds the row with a
fresh `eventId` and inserts it through `_retry_sync`
(`retries = 3, base_delay = 0.8`, no fallback); the surrounding try/except
logs and re-raises, leaving the outcome unchanged.  `insertCalls i` is the
outcome of the i-th insert attempt. -/
def saveEventSync (eventId : String) (insertCalls : Nat → Except Err Unit)
    (jitter : Nat → ℚ) : Except Err String :=
  retrySync (fun i => (insertCalls i).map (fun _ => eventId)) jitter (4/5) 3 none

/-- The filter requested by
`events.select().eq("job_id", jobId).eq("event_type", "human_response")`
in `fetch_human_response_sync`: matching rows in the backend's stored
order — the query requests no ordering. -/
def queryHumanResponse (table : List EventRow) (jobId : String) :
    List EventRow :=
  table.filter (fun r => r.jobId == jobId && r.eventType == "human_response")

/-- Embedding of `fetch_human_response_sync` (`database.py` lines 190-211): a falsy
`job_id` short-circuits to `None` before any backend access; otherwise the
query runs through `_retry_sync` (defaults `retries = 3,
base_delay = 0.8`, no fallback) and the first row of the response, if any,
is returned.  `attempts i` is the row list produced by the i-th query
execution. -/
def fetchHumanResponseSync (jobId : Option String)
    (attempts : Nat → Except Err (List EventRow)) (jitter : Nat → ℚ) :
    Except Err (Option EventRow) :=
  if strTruthy jobId then
    retrySync (fun i => (attempts i).map (fun rows => rows.head?))
      jitter (4/5) 3 none
  else
    .ok none

/-- Python `str.split(sep)` over the character list: splitting the empty
string yields one empty piece, matching `"".split(",") == [""]`. -/
def splitChars (sep : Char) : List Char → List (List Char)
  | [] => [[]]
  | c :: cs =>
    let rest := splitChars sep cs
    if c = sep then [] :: rest
    else
      match rest with
      | [] => [[c]]
      | r :: rs => (c :: r) :: rs

/-- Python `str.split(sep)` on strings. -/
def pySplit (s : String) (sep : Char) : List String :=
  (splitChars sep s.data).map (fun cs => String.mk cs)

/-- Drop leading whitespace characters. -/
def dropLeadingWs : List Char → List Char
  | [] => []
  | c :: cs => if c.isWhitespace then dropLeadingWs cs else c :: cs

/-- Python `str.strip()`: remove leading and trailing whitespace. -/
def pyStrip (s : String) : String :=
  String.mk ((dropLeadingWs (dropLeadingWs s.data).reverse).reverse)

/-- The recipient parse of `save_notification_sync` (`database.py` line
229): split the CSV on commas, strip each piece, keep the non-blank ones
(duplicates kept, order kept). -/
def parseUserIds (csv : String) : List String :=
  ((pySplit csv ',').map pyStrip).filter (fun uid => uid ≠ "")

/-- Embedding of `save_notification_sync` (`database.py` lines 214-265): a falsy CSV or
a parse yielding no valid id skips the insert (`.ok []`); otherwise the
rows — one per parsed id, in parse order — go to the backend in a single
insert through `_retry_sync` (`retries = 3, base_delay = 0.8`).  The
result lists the `user_id` of each inserted row. -/
def saveNotificationSync (userIdsCsv : Option String)
    (insertCalls : Nat → Except Err Unit) (jitter : Nat → ℚ) :
    Except Err (List String) :=
  if !(strTruthy userIdsCsv) then .ok []
  else
    let ids := parseUserIds (userIdsCsv.getD "")
    if ids = [] then .ok []
    else retrySync (fun i => (insertCalls i).map (fun _ => ids)) jitter (4/5) 3 none

/-- The `mcp` column value of a `tenants` row: either the literal empty
dict the code substitutes, or an opaque configuration payload. -/
inductive McpVal where
  | emptyDict
  | config (payload : String)
  deriving DecidableEq, Repr

/-- A `tenants` row, restricted to the `mcp` column (`none` = SQL null). -/
structure TenantRow where
  mcp : Option McpVal
  deriving DecidableEq, Repr

/-- Embedding of `fetch_tenant_mcp` (`database.py` lines 268-272): one direct
`.single()` query with no retry wrapper; a returned row yields its `mcp`
column (possibly null), an empty response yields the literal `\x7b\x7d`. -/
def fetchTenantMcp (call : Nat → Except Err (Option TenantRow)) :
    Except Err (Option McpVal) :=
  (call 1).map (fun row? =>
    match row? with
    | some row => row.mcp
    | none => some .emptyDict)

/-- Embedding of `fetch_events_by_todo_id` (`database.py` lines 275-280): one direct
query with no retry wrapper (the ascending timestamp order is requested of
the backend); `resp.data or []`. -/
def fetchEventsByTodoId (call : Nat → Except Err (List EventRow)) :
    Except Err (List EventRow) :=
  call 1

/-- A `todolist` row, restricted to the fields
`DeterministicCodeTool._run` reads (`.get` misses modelled as `none`;
a missing `rework_count` is read as 0 by the caller). -/
structure Workitem where
  procDefId : Option String
  activityId : Option String
  reworkCount : Int
  deriving DecidableEq, Repr

/-- Embedding of `fetch_workitem_by_id` (`database.py` lines 283-286): one direct
`.single()` query with no retry wrapper. -/
def fetchWorkitemById (call : Nat → Except Err (Option Workitem)) :
    Except Err (Option Workitem) :=
  call 1

/-- A `mcp_python_code` row, restricted to the `id` the code reads back. -/
structure CodeRow where
  id : String
  deriving DecidableEq, Repr

/-- Embedding of `fetch_mcp_python_code` (`database.py` lines 289-302): one direct query
with no retry wrapper (descending `created_at` order and `limit 1` are
requested of the backend); first row or `None`. -/
def fetchMcpPythonCode (call : Nat → Except Err (List CodeRow)) :
    Except Err (Option CodeRow) :=
  (call 1).map List.head?

/-- Embedding of `upsert_mcp_python_code` (`database.py` lines 305-321): a direct
`fetch_mcp_python_code` decides whether the payload carries the existing
row id, then one direct upsert call — neither through the retry wrapper;
an upsert response with no rows raises. -/
def upsertMcpPythonCode (fetchCall : Nat → Except Err (List CodeRow))
    (upsertCall : Option String → Nat → Except Err (List CodeRow)) :
    Except Err String :=
  match fetchMcpPythonCode fetchCall with
  | .error e => .error e
  | .ok existing =>
    match upsertCall (existing.map (fun r => r.id)) 1 with
    | .error e => .error e
    | .ok rows =>
      match rows.head? with
      | some r => .ok r.id
      | none => .error (.runtime "Failed to upsert mcp_python_code")

/-- A `form_def` row, restricted to its id. -/
structure FormRow where
  id : String
  deriving DecidableEq, Repr

/-- Embedding of `fetch_form_by_id` (`database.py` lines 323-326): one direct
`.single()` query with no retry wrapper. -/
def fetchFormById (call : Nat → Except Err (Option FormRow)) :
    Except Err (Option FormRow) :=
  call 1

/-- Outcome of one poll iteration of `HumanQueryTool._wait_for_response`
(`human_query_tool.py` lines 174-193): the fetch raised, it returned no
event, or it returned an event already rendered to the answer string
(`data["answer"]` when that is a string, else the JSON dump of `data`). -/
inductive PollStep where
  | failed
  | empty
  | found (answer : String)
  deriving DecidableEq, Repr

/-- How the wait loop exits: a returned string or a raised exception. -/
inductive WaitResult where
  | returned (s : String)
  | raised
  deriving DecidableEq, Repr

/-- The non-response sentinel returned on timeout
(`human_query_tool.py` line 196). -/
def noResponseSentinel : String := "사용자 미응답 거절"

/-- Embedding of `HumanQueryTool._wait_for_response` (`human_query_tool.py` lines
170-196).  `polls` lists the outcomes of the iterations whose deadline
check passes (one poll every 5 seconds within the 180-second window); the
end of the list is the deadline expiring.  A found event returns its
answer; a successful empty poll resets the consecutive-error counter; an
error increments it and a third consecutive error raises the fatal
RuntimeError before any further poll; the deadline returns the sentinel. -/
def waitForResponse : List PollStep → Nat → WaitResult
  | [], _ => .returned noResponseSentinel
  | .found a :: _, _ => .returned a
  | .empty :: rest, _ => waitForResponse rest 0
  | .failed :: rest, errorCount =>
    if errorCount + 1 ≥ 3 then .raised
    else waitForResponse rest (errorCount + 1)

/-- Longest run of consecutive `failed` polls in the trace, with `cur`
consecutive errors already accumulated when the trace starts. -/
def maxFailStreak : List PollStep → Nat → Nat
  | [], cur => cur
  | .failed :: rest, cur => maxFailStreak rest (cur + 1)
  | _ :: rest, cur => max cur (maxFailStreak rest 0)

/-- A `proc_def` decision-rule row, restricted to its name. -/
structure DmnRule where
  name : String
  deriving DecidableEq, Repr

/-- External outcomes feeding `DMNRuleTool.__init__`
(`dmn_rule_tool.py` lines 58-77): the database-client initialization and
the rules query of `_load_user_rules`. -/
structure DmnWorld where
  initDb : Except Err Unit
  rulesQuery : Except Err (List DmnRule)

/-- The constructed tool state: the bound user id and the pre-loaded
rules. -/
structure DmnTool where
  userId : Option String
  userRules : List DmnRule
  deriving DecidableEq, Repr

/-- Embedding of `DMNRuleTool._load_user_rules` (`dmn_rule_tool.py` lines 79-90): the
query result on success (`response.data if response.data else []`), and
the empty list when the query raises — the except block logs and swallows
the error without re-raising. -/
def loadUserRules (q : Except Err (List DmnRule)) : List DmnRule :=
  match q with
  | .ok rules => rules
  | .error _ => []

/-- Embedding of `DMNRuleTool.__init__` (`dmn_rule_tool.py` lines 58-77): initialize the
database client (failure logged and re-raised), then, when a truthy user
id is present, pre-load that user's rules via `_load_user_rules` (which
cannot raise). -/
def dmnInit (userId : Option String) (w : DmnWorld) : Except Err DmnTool :=
  match w.initDb with
  | .error e => .error e
  | .ok _ =>
    .ok { userId := userId
          userRules := if strTruthy userId then loadUserRules w.rulesQuery else [] }

/-- The empty-query prompt of `DMNRuleTool._run`. -/
def emptyQueryMsg : String := "분석할 쿼리를 입력해주세요."

/-- The no-rules report of `DMNRuleTool._run` (the source interpolates the
user id into this message). -/
def noRulesMsg : String := "사용자의 DMN 규칙이 없습니다."

/-- Embedding of `DMNRuleTool._run` (`dmn_rule_tool.py` lines 92-115): an empty query
returns the prompt message; an empty pre-loaded rule set returns the
no-rules message; otherwise the analysis runs, its failure re-raised. -/
def dmnRun (tool : DmnTool) (query : String)
    (analysis : Except Err String) : Except Err String :=
  if query = "" then .ok emptyQueryMsg
  else if tool.userRules.isEmpty then .ok noRulesMsg
  else analysis

/-- The first failing `stop()` in `SafeToolLoader.shutdown_all_adapters`
(`safe_tool_loader.py` lines 379-392), scanning the registry in order;
each registered adapter is abstracted by its `stop()` outcome. -/
def stopLoop : List (Except Err Unit) → Option Err
  | [] => none
  | .ok _ :: rest => stopLoop rest
  | .error e :: _ => some e

/-- Embedding of `SafeToolLoader.shutdown_all_adapters` (`safe_tool_loader.py` lines
379-392): stop each adapter in registry order; the first failure is logged
and re-raised immediately — there is no try/finally, so
`cls.adapters.clear()` runs only after a fully successful pass.  Returns
the call outcome together with the registry's final contents. -/
def shutdownAllAdapters (adapters : List (Except Err Unit)) :
    Except Err Unit × List (Except Err Unit) :=
  match stopLoop adapters with
  | some e => (.error e, adapters)
  | none => (.ok (), [])

/-- Python values as far as `DeterministicCodeTool._run` manipulates them
around the compensation branch. -/
inductive PyVal where
  | pyStr (s : String)
  | pyList (xs : List PyVal)
  | pyNone

/-- Python attribute call `value.get(key, dflt)` evaluated on a value that
is a `str`: always an AttributeError, since `str` has no `get` method. -/
def strGet (s key : String) (dflt : PyVal) : Except Err PyVal :=
  .error (.attributeError "str" "get")

/-- Python `a + b` on two values expected to be lists. -/
def pyListConcat : PyVal → PyVal → Except Err PyVal
  | .pyList a, .pyList b => .ok (.pyList (a ++ b))
  | _, _ => .error (.runtime "unsupported operand type for +")

/-- External outcomes feeding `DeterministicCodeTool._run`
(`deterministic_code_tool.py` lines 709-762): the database
initialization, the workitem fetch, the code generation
(`_run_coro_safely(_generate_code(...))`, keeping its `parameters`
metadata), the saved-code fetch, and `_execute_code` keyed by its
`use_compensation` flag — which, per its annotation, returns a string. -/
structure DcWorld where
  initDb : Except Err Unit
  workitem : Except Err (Option Workitem)
  generate : Except Err String
  existedCode : Except Err (Option CodeRow)
  execRun : Bool → Except Err String

/-- The value `DeterministicCodeTool._run` returns, one constructor per
serialization site of the source. -/
inductive RunReturn where
  | jsonError (msg : String)
  | generated (parameters : String)
  | noSavedCode
  | execResult (s : String)
  | combined (results formResult : PyVal)
  | runFailed (msg : String)

/-- The try-block body of `DeterministicCodeTool._run`
(`deterministic_code_tool.py` lines 724-760): fetch the workitem (missing
row or missing `proc_def_id`/`activity_id` answered with JSON error
objects), dispatch on the action, and for the execute action with saved
code either run once, or — when `rework_count > 0` — run the compensation
code then the normal code and call `.get` on the two string results. -/
def dcRunBody (todoId action : String) (w : DcWorld) :
    Except Err RunReturn := do
  let workitem? ← w.workitem
  match workitem? with
  | none => return .jsonError ("todolist not found for todo_id=" ++ todoId)
  | some workitem =>
    let useCompensation := workitem.reworkCount > 0
    if !(strTruthy workitem.procDefId) || !(strTruthy workitem.activityId) then
      return .jsonError "proc def id or activity id missing in todolist"
    else if action = "generate" then
      let parameters ← w.generate
      return .generated parameters
    else
      let existed? ← w.existedCode
      match existed? with
      | none => return .noSavedCode
      | some _ =>
        if useCompensation then
          let compensationResult ← w.execRun true
          let execResult ← w.execRun false
          let compResults ← strGet compensationResult "results" (.pyList [])
          let execResults ← strGet execResult "results" (.pyList [])
          let results ← pyListConcat compResults execResults
          let formResult ← strGet execResult "form_result" .pyNone
          return .combined results formResult
        else
          let execResult ← w.execRun false
          return .execResult execResult

/-- Embedding of `DeterministicCodeTool._run` (`deterministic_code_tool.py` lines
709-762): `initialize_db()` sits in its own try/except-pass, so its
outcome (`w.initDb`) is discarded either way; every exception escaping
the orchestration body is caught and serialized as `run failed: <error>`. -/
def dcRun (todoId action : String) (w : DcWorld) : RunReturn :=
  match dcRunBody todoId action w with
  | .ok r => r
  | .error e => .runFailed ("run failed: " ++ errToString e)

/-- Whether a poll iteration found an event. -/
def isFound : PollStep → Bool
  | .found _ => true
  | _ => false

lemma le_maxFailStreak (polls : List PollStep) (cur : Nat) :
    cur ≤ maxFailStreak polls cur := by
  induction polls generalizing cur with
  | nil => simp [maxFailStreak]
  | cons p rest ih =>
    cases p with
    | failed => exact le_trans (Nat.le_succ cur) (ih (cur + 1))
    | empty => exact le_max_left cur (maxFailStreak rest 0)
    | found a => exact le_max_left cur (maxFailStreak rest 0)

/-- C2: for every operation handed to `_retry_sync` with the default
`retries = 3`, `base_delay = 0.8` and nonnegative jitter: a first success
on attempt `k ≤ 3` returns that attempt's value after exactly `k - 1`
failed attempts, the delay slept after the i-th failure being at least
`0.8 * 2 ^ (i - 1)` seconds; failure on all 3 attempts with no fallback
re-raises the third attempt's error; with a fallback, the fallback runs
once and its outcome — value or its own error — is the overall outcome. -/
theorem retrySync_retry_semantics {α : Type} (fn : Nat → Except Err α)
    (jitter : Nat → ℚ) (hj : ∀ i, 0 ≤ jitter i) :
    (∀ k v fb, 1 ≤ k → k ≤ 3 →
      (∀ i, 1 ≤ i → i < k → ∃ e, fn i = .error e) → fn k = .ok v →
      retrySync fn jitter (4/5) 3 fb = .ok v ∧
      (retryDelays fn jitter (4/5) 3).length = k - 1 ∧
      ∀ n, n < (retryDelays fn jitter (4/5) 3).length →
        (4/5) * 2 ^ n ≤ (retryDelays fn jitter (4/5) 3).getD n 0) ∧
    (∀ e3, (∀ i, 1 ≤ i → i < 3 → ∃ e, fn i = .error e) → fn 3 = .error e3 →
      retrySync fn jitter (4/5) 3 none = .error e3 ∧
      ∀ fb, retrySync fn jitter (4/5) 3 (some fb) = fb) := by
  constructor
  · intro k v fb hk1 hk3 hfail hok
    interval_cases k
    · have h := retryGo_three fn jitter (4/5)
      simp only [hok] at h
      refine ⟨by simp [retrySync, h], by simp [retryDelays, h], ?_⟩
      intro n hn
      simp [retryDelays, h] at hn
    · obtain ⟨e1, he1⟩ := hfail 1 (by norm_num) (by norm_num)
      have h := retryGo_three fn jitter (4/5)
      simp only [he1, hok] at h
      refine ⟨by simp [retrySync, h], by simp [retryDelays, h], ?_⟩
      intro n hn
      simp only [retryDelays, h, List.length_cons, List.length_nil] at hn
      interval_cases n
      simp [retryDelays, h, List.getD]
      have := hj 1
      linarith
    · obtain ⟨e1, he1⟩ := hfail 1 (by norm_num) (by norm_num)
      obtain ⟨e2, he2⟩ := hfail 2 (by norm_num) (by norm_num)
      have h := retryGo_three fn jitter (4/5)
      simp only [he1, he2, hok] at h
      refine ⟨by simp [retrySync, h], by simp [retryDelays, h], ?_⟩
      intro n hn
      simp only [retryDelays, h, List.length_cons, List.length_nil] at hn
      interval_cases n
      · simp [retryDelays, h, List.getD]
        have := hj 1
        linarith
      · simp [retryDelays, h, List.getD]
        have := hj 2
        linarith
  · intro e3 hfail h3
    obtain ⟨e1, he1⟩ := hfail 1 (by norm_num) (by norm_num)
    obtain ⟨e2, he2⟩ := hfail 2 (by norm_num) (by norm_num)
    have h := retryGo_three fn jitter (4/5)
    simp only [he1, he2, h3] at h
    exact ⟨by simp [retrySync, h], fun fb => by simp [retrySync, h]⟩

theorem retrySync_retry_semantics_witness :
    retrySync
        (fun i => if i < 3 then Except.error (Err.db "boom") else Except.ok 42)
        (fun _ => 0) (4/5) 3 none = Except.ok 42 ∧
      (retryDelays
          (fun i => if i < 3 then Except.error (Err.db "boom") else Except.ok 42)
          (fun _ => 0) (4/5) 3).length = 2 := by
  have h := (retrySync_retry_semantics
      (fun i => if i < 3 then Except.error (Err.db "boom") else Except.ok 42)
      (fun _ => 0) (fun _ => le_refl 0)).1 3 42 none (by norm_num) (by norm_num)
      (fun i _ h2 => ⟨Err.db "boom", by simp [h2]⟩) (by norm_num)
  exact ⟨h.1, h.2.1⟩

/-- C1 counterexample: `fetch_tenant_mcp` does not go through the retry
wrapper.  On a backend whose first call fails transiently and whose second
call succeeds, the operation fails outright, while the very same call
stream run through `_retry_sync` (as the claim asserts for every domain
operation) would succeed on the second attempt. -/
theorem fetchTenantMcp_no_retry_counterexample :
    fetchTenantMcp
        (fun i => if i = 1 then Except.error (Err.db "transient")
          else Except.ok (some { mcp := some (McpVal.config "cfg") })) =
      Except.error (Err.db "transient") ∧
    retrySync
        (fun i => if i = 1 then Except.error (Err.db "transient")
          else Except.ok (some ({ mcp := some (McpVal.config "cfg") } : TenantRow)))
        (fun _ => 0) (4/5) 3 none =
      Except.ok (some { mcp := some (McpVal.config "cfg") }) := by
  constructor
  · rfl
  · have h := retryGo_three
      (fun i => if i = 1 then Except.error (Err.db "transient")
        else Except.ok (some ({ mcp := some (McpVal.config "cfg") } : TenantRow)))
      (fun _ => 0) (4/5)
    norm_num at h
    simp [retrySync, h]

/-- C1 amended: only the Event insert, the human-response fetch and the
Notification insert run their backend call through `_retry_sync` — for
these a first-attempt failure is retried (up to 3 attempts in total).  The
other five domain operations (tenant `mcp` fetch, Events-by-task fetch,
Workitem fetch, generated-code fetch/replace, Form fetch) issue their
backend call exactly once, so a first-attempt failure propagates without
any retry. -/
theorem persistenceOps_retry_routing (e : Err) (jitter : Nat → ℚ) :
    (∀ (eventId : String) (calls : Nat → Except Err Unit),
      calls 1 = .error e → calls 2 = .ok () →
      saveEventSync eventId calls jitter = .ok eventId) ∧
    (∀ (jobId : String) (attempts : Nat → Except Err (List EventRow))
        (rows : List EventRow),
      jobId ≠ "" → attempts 1 = .error e → attempts 2 = .ok rows →
      fetchHumanResponseSync (some jobId) attempts jitter = .ok rows.head?) ∧
    (∀ (csv : String) (calls : Nat → Except Err Unit),
      csv ≠ "" → parseUserIds csv ≠ [] →
      calls 1 = .error e → calls 2 = .ok () →
      saveNotificationSync (some csv) calls jitter = .ok (parseUserIds csv)) ∧
    (∀ call : Nat → Except Err (Option TenantRow), call 1 = .error e →
      fetchTenantMcp call = .error e) ∧
    (∀ call : Nat → Except Err (List EventRow), call 1 = .error e →
      fetchEventsByTodoId call = .error e) ∧
    (∀ call : Nat → Except Err (Option Workitem), call 1 = .error e →
      fetchWorkitemById call = .error e) ∧
    (∀ call : Nat → Except Err (List CodeRow), call 1 = .error e →
      fetchMcpPythonCode call = .error e) ∧
    (∀ (fetchCall : Nat → Except Err (List CodeRow))
        (upsertCall : Option String → Nat → Except Err (List CodeRow)),
      fetchCall 1 = .error e →
      upsertMcpPythonCode fetchCall upsertCall = .error e) ∧
    (∀ call : Nat → Except Err (Option FormRow), call 1 = .error e →
      fetchFormById call = .error e) := by
  refine ⟨?_, ?_, ?_, ?_, ?_, ?_, ?_, ?_, ?_⟩
  · intro eventId calls h1 h2
    simp [saveEventSync, retrySync, retryGo_three, h1, h2, Except.map]
  · intro jobId attempts rows hj h1 h2
    simp [fetchHumanResponseSync, strTruthy, hj, retrySync, retryGo_three,
      h1, h2, Except.map]
  · intro csv calls hcsv hids h1 h2
    simp [saveNotificationSync, strTruthy, hcsv, hids, retrySync,
      retryGo_three, h1, h2, Except.map]
  · intro call h1
    simp [fetchTenantMcp, h1, Except.map]
  · intro call h1
    simp [fetchEventsByTodoId, h1]
  · intro call h1
    simp [fetchWorkitemById, h1]
  · intro call h1
    simp [fetchMcpPythonCode, h1, Except.map]
  · intro fetchCall upsertCall h1
    simp [upsertMcpPythonCode, fetchMcpPythonCode, h1, Except.map]
  · intro call h1
    simp [fetchFormById, h1]

theorem persistenceOps_retry_routing_witness :
    saveEventSync "ev-1"
        (fun i => if i = 1 then Except.error (Err.db "t") else Except.ok ())
        (fun _ => 0) = Except.ok "ev-1" ∧
    fetchFormById
        (fun i => if i = 1 then Except.error (Err.db "t")
          else Except.ok (some { id := "f1" })) = Except.error (Err.db "t") := by
  have h := persistenceOps_retry_routing (Err.db "t") (fun _ => 0)
  constructor
  · exact h.1 "ev-1"
      (fun i => if i = 1 then Except.error (Err.db "t") else Except.ok ())
      (by norm_num) (by norm_num)
  · exact h.2.2.2.2.2.2.2.2
      (fun i => if i = 1 then Except.error (Err.db "t")
        else Except.ok (some { id := "f1" }))
      (by norm_num)

lemma waitForResponse_streak (polls : List PollStep)
    (hnf : ∀ p ∈ polls, isFound p = false) :
    ∀ ec, ec < 3 →
      (maxFailStreak polls ec < 3 →
        waitForResponse polls ec = .returned noResponseSentinel) ∧
      (3 ≤ maxFailStreak polls ec → waitForResponse polls ec = .raised) := by
  induction polls with
  | nil =>
    intro ec hec
    constructor
    · intro _
      rfl
    · intro h3
      simp only [maxFailStreak] at h3
      omega
  | cons p rest ih =>
    intro ec hec
    have hrest : ∀ q ∈ rest, isFound q = false :=
      fun q hq => hnf q (List.mem_cons_of_mem _ hq)
    cases p with
    | found a =>
      have := hnf (.found a) (List.mem_cons_self _ _)
      simp [isFound] at this
    | empty =>
      have h0 := ih hrest 0 (by norm_num)
      constructor
      · intro hlt
        simp only [maxFailStreak] at hlt
        have hr : maxFailStreak rest 0 < 3 :=
          lt_of_le_of_lt (le_max_right _ _) hlt
        simpa [waitForResponse] using h0.1 hr
      · intro hge
        simp only [maxFailStreak] at hge
        rcases le_max_iff.mp hge with h | h
        · omega
        · simpa [waitForResponse] using h0.2 h
    | failed =>
      simp only [maxFailStreak]
      by_cases h3 : ec + 1 ≥ 3
      · constructor
        · intro hlt
          exfalso
          have := le_maxFailStreak rest (ec + 1)
          omega
        · intro _
          simp [waitForResponse, h3]
      · have h1 := ih hrest (ec + 1) (by omega)
        constructor
        · intro hlt
          simpa [waitForResponse, h3] using h1.1 hlt
        · intro hge
          simpa [waitForResponse, h3] using h1.2 hge

/-- C4: in the Human Query Tool wait loop, over any sequence of poll
outcomes within the deadline in which no `human_response` event is found:
when no run of 3 consecutive poll errors occurs (any successful poll
resetting the counter), the loop reaches the deadline and returns the
non-response sentinel without raising; when 3 consecutive poll errors
accumulate, the loop raises the fatal polling error. -/
theorem humanQuery_wait_loop (polls : List PollStep)
    (hnf : ∀ p ∈ polls, isFound p = false) :
    (maxFailStreak polls 0 < 3 →
      waitForResponse polls 0 = .returned noResponseSentinel) ∧
    (3 ≤ maxFailStreak polls 0 → waitForResponse polls 0 = .raised) :=
  waitForResponse_streak polls hnf 0 (by norm_num)

theorem humanQuery_wait_loop_witness :
    waitForResponse [PollStep.empty, PollStep.failed, PollStep.failed,
        PollStep.empty, PollStep.failed] 0 = .returned noResponseSentinel ∧
    waitForResponse [PollStep.failed, PollStep.failed, PollStep.failed] 0 =
      WaitResult.raised := by
  constructor
  · exact (humanQuery_wait_loop _ (by decide)).1 (by decide)
  · exact (humanQuery_wait_loop _ (by decide)).2 (by decide)

/-- C5 counterexample: the human-response fetch requests no ordering and
returns the first row of the backend's response.  On a table storing two
matching events, the older one first, the fetch returns the older event
even though a strictly newer matching event exists — so the returned row
is not the most recent one. -/
theorem fetchHumanResponse_not_newest_counterexample :
    fetchHumanResponseSync (some "job-1")
        (fun _ => Except.ok (queryHumanResponse
          [{ jobId := "job-1", eventType := "human_response", timestamp := 1 },
           { jobId := "job-1", eventType := "human_response", timestamp := 2 }]
          "job-1"))
        (fun _ => 0) =
      Except.ok
        (some { jobId := "job-1", eventType := "human_response", timestamp := 1 }) ∧
    ({ jobId := "job-1", eventType := "human_response", timestamp := 2 } :
        EventRow) ∈ queryHumanResponse
          [{ jobId := "job-1", eventType := "human_response", timestamp := 1 },
           { jobId := "job-1", eventType := "human_response", timestamp := 2 }]
          "job-1" ∧
    (1 : Int) < 2 := by
  refine ⟨?_, by decide, by decide⟩
  simp [fetchHumanResponseSync, strTruthy, retrySync, retryGo_three,
    queryHumanResponse, Except.map]

/-- C5 amended: for every job id and stored table, the human-response
fetch returns the first matching row of the backend's response in stored
order (no ordering is requested), `none` when no row matches; it returns
the newest row only when the backend happens to list that row first. -/
theorem fetchHumanResponse_first_match (table : List EventRow)
    (jobId : String) (jitter : Nat → ℚ) (h : jobId ≠ "") :
    fetchHumanResponseSync (some jobId)
        (fun _ => Except.ok (queryHumanResponse table jobId)) jitter =
      Except.ok (queryHumanResponse table jobId).head? := by
  simp [fetchHumanResponseSync, strTruthy, h, retrySync, retryGo_three,
    Except.map]

theorem fetchHumanResponse_first_match_witness :
    fetchHumanResponseSync (some "j")
        (fun _ => Except.ok (queryHumanResponse
          [{ jobId := "j", eventType := "human_response", timestamp := 5 }] "j"))
        (fun _ => 0) =
      Except.ok
        (some { jobId := "j", eventType := "human_response", timestamp := 5 }) := by
  have h := fetchHumanResponse_first_match
    [{ jobId := "j", eventType := "human_response", timestamp := 5 }] "j"
    (fun _ => 0) (by decide)
  simpa [queryHumanResponse] using h

/-- C10: for a falsy (`None` or empty) `job_id`, the synchronous
human-response fetch returns `None` immediately, regardless of how the
backend would behave — even a backend stream failing every attempt is
never consulted and no exception is raised. -/
theorem fetchHumanResponse_falsy_jobid
    (attempts : Nat → Except Err (List EventRow)) (jitter : Nat → ℚ) :
    fetchHumanResponseSync none attempts jitter = Except.ok none ∧
    fetchHumanResponseSync (some "") attempts jitter = Except.ok none := by
  constructor <;> simp [fetchHumanResponseSync, strTruthy]

/-- C8 counterexample: the recipient parse keeps duplicate ids, so the CSV
`"a,a"` — one distinct trimmed non-blank id — inserts two Notification
rows, not one row per distinct id. -/
theorem saveNotification_not_distinct_counterexample :
    saveNotificationSync (some "a,a") (fun _ => Except.ok ()) (fun _ => 0) =
      Except.ok ["a", "a"] ∧
    (["a", "a"] : List String).dedup = ["a"] := by
  constructor
  · decide
  · decide

/-- C8 amended: `save_notification` inserts exactly one Notification row
per trimmed non-blank id occurrence of the CSV (duplicates are not
removed), in parse order; each inserted id is a trimmed CSV piece and
non-blank; and for a falsy CSV or a parse with no valid id it inserts
zero rows and returns without error, whatever the backend stream. -/
theorem saveNotification_rows (csv : Option String)
    (calls : Nat → Except Err Unit) (jitter : Nat → ℚ) :
    (calls 1 = .ok () → saveNotificationSync csv calls jitter =
      .ok (if strTruthy csv then parseUserIds (csv.getD "") else [])) ∧
    ((if strTruthy csv then parseUserIds (csv.getD "") else []) = [] →
      saveNotificationSync csv calls jitter = .ok []) ∧
    (∀ uid ∈ parseUserIds (csv.getD ""), uid ≠ "" ∧
      ∃ piece ∈ pySplit (csv.getD "") ',', uid = pyStrip piece) := by
  refine ⟨?_, ?_, ?_⟩
  · intro h1
    by_cases ht : strTruthy csv
    · by_cases hids : parseUserIds (csv.getD "") = []
      · simp [saveNotificationSync, ht, hids]
      · simp only [ht, if_pos]
        simp [saveNotificationSync, ht, hids, retrySync, retryGo_three,
          h1, Except.map]
    · simp [saveNotificationSync, ht]
  · intro hids
    by_cases ht : strTruthy csv
    · simp only [ht, if_pos] at hids
      simp [saveNotificationSync, ht, hids]
    · simp [saveNotificationSync, ht]
  · intro uid hmem
    simp only [parseUserIds, List.mem_filter, List.mem_map] at hmem
    obtain ⟨⟨piece, hpiece, htr⟩, hne⟩ := hmem
    exact ⟨by simpa using hne, piece, hpiece, htr.symm⟩

theorem saveNotification_rows_witness :
    saveNotificationSync (some "a, b") (fun _ => Except.ok ()) (fun _ => 0) =
      Except.ok ["a", "b"] ∧
    saveNotificationSync (some "  ") (fun _ => Except.error (Err.db "down"))
        (fun _ => 0) = Except.ok [] := by
  constructor
  · rw [(saveNotification_rows (some "a, b") (fun _ => Except.ok ())
      (fun _ => 0)).1 rfl]
    decide
  · exact (saveNotification_rows (some "  ")
      (fun _ => Except.error (Err.db "down")) (fun _ => 0)).2.1 (by decide)

/-- C6 counterexample: with a user id present, a failure of the rules
query is not fatal — `_load_user_rules` swallows the error and records an
empty rule set, so construction returns a tool instead of raising. -/
theorem dmnInit_load_failure_not_fatal :
    dmnInit (some "user-1")
        { initDb := Except.ok (),
          rulesQuery := Except.error (Err.db "load boom") } =
      Except.ok { userId := some "user-1", userRules := [] } := by
  decide

/-- C6 amended: with a user id present, only the database-client
initialization failure makes construction raise; a rules-load failure is
caught inside `_load_user_rules` and recorded as an empty rule set, like
an empty load result — and with an empty rule set subsequent queries
report that the user has no DMN rules. -/
theorem dmnInit_error_handling (userId : Option String) (w : DmnWorld)
    (q : String) (analysis : Except Err String)
    (hu : strTruthy userId = true) :
    (∀ e, w.initDb = .error e → dmnInit userId w = .error e) ∧
    (∀ e, w.initDb = .ok () → w.rulesQuery = .error e →
      dmnInit userId w = .ok { userId := userId, userRules := [] }) ∧
    (w.initDb = .ok () → w.rulesQuery = .ok [] →
      dmnInit userId w = .ok { userId := userId, userRules := [] }) ∧
    (q ≠ "" → dmnRun { userId := userId, userRules := [] } q analysis =
      .ok noRulesMsg) := by
  refine ⟨?_, ?_, ?_, ?_⟩
  · intro e h
    simp [dmnInit, h]
  · intro e hi hq
    simp [dmnInit, hi, hq, loadUserRules, hu]
  · intro hi hq
    simp [dmnInit, hi, hq, loadUserRules, hu]
  · intro hq
    simp [dmnRun, hq]

theorem dmnInit_error_handling_witness :
    dmnInit (some "u")
        { initDb := Except.error (Err.db "cfg"), rulesQuery := Except.ok [] } =
      Except.error (Err.db "cfg") ∧
    dmnRun { userId := some "u", userRules := [] } "query" (Except.ok "x") =
      Except.ok noRulesMsg := by
  have h := dmnInit_error_handling (some "u")
    { initDb := Except.error (Err.db "cfg"), rulesQuery := Except.ok [] }
    "query" (Except.ok "x") (by decide)
  exact ⟨h.1 (Err.db "cfg") rfl, h.2.2.2 (by decide)⟩

/-- C7 counterexample: when the second adapter's stop fails, the call
raises and the registry is left holding both adapters — it is not
cleared, because the `clear()` is only reached after a fully successful
loop. -/
theorem shutdown_clear_not_unconditional :
    (shutdownAllAdapters
        [Except.ok (), Except.error (Err.runtime "stop boom")]).1 =
      Except.error (Err.runtime "stop boom") ∧
    (shutdownAllAdapters
        [Except.ok (), Except.error (Err.runtime "stop boom")]).2 =
      [Except.ok (), Except.error (Err.runtime "stop boom")] ∧
    (shutdownAllAdapters
        [Except.ok (), Except.error (Err.runtime "stop boom")]).2 ≠ [] := by
  refine ⟨by decide, by decide, by decide⟩

lemma stopLoop_eq_none (adapters : List (Except Err Unit))
    (hall : ∀ a ∈ adapters, a = .ok ()) : stopLoop adapters = none := by
  induction adapters with
  | nil => rfl
  | cons a rest ih =>
    have ha := hall a (List.mem_cons_self _ _)
    subst ha
    simpa [stopLoop] using ih (fun b hb => hall b (List.mem_cons_of_mem _ hb))

/-- C7 amended: `shutdown_all_adapters` clears the registry only when
every adapter's stop succeeds; the first stop failure surfaces as an
error to the caller, aborts the remaining shutdowns, and leaves the
registry unchanged — still holding all adapters. -/
theorem shutdownAllAdapters_clear_on_success
    (adapters : List (Except Err Unit)) :
    ((∀ a ∈ adapters, a = .ok ()) →
      shutdownAllAdapters adapters = (.ok (), [])) ∧
    (∀ e, stopLoop adapters = some e →
      shutdownAllAdapters adapters = (.error e, adapters)) := by
  constructor
  · intro hall
    simp [shutdownAllAdapters, stopLoop_eq_none adapters hall]
  · intro e he
    simp [shutdownAllAdapters, he]

theorem shutdownAllAdapters_clear_on_success_witness :
    shutdownAllAdapters [Except.ok (), Except.ok ()] = (Except.ok (), []) ∧
    shutdownAllAdapters [Except.error (Err.runtime "x"), Except.ok ()] =
      (Except.error (Err.runtime "x"),
        [Except.error (Err.runtime "x"), Except.ok ()]) := by
  constructor
  · exact (shutdownAllAdapters_clear_on_success _).1 (by decide)
  · exact (shutdownAllAdapters_clear_on_success _).2 (Err.runtime "x")
      (by decide)

/-- C3 (code bug): in execute mode with `rework_count > 0` and saved code,
`_run` calls `.get("results")` on the values returned by `_execute_code` —
but `_execute_code` returns a string, so the call raises AttributeError
unconditionally, is caught by the catch-all, and the tool answers
`run failed: ...` instead of the concatenated results.  Evaluated here at
a fully succeeding environment. -/
theorem dcRun_compensation_attribute_error :
    dcRun "todo-1" "execute"
        { initDb := Except.ok (),
          workitem := Except.ok (some { procDefId := some "p", activityId := some "a", reworkCount := 1 }),
          generate := Except.ok "params",
          existedCode := Except.ok (some { id := "c1" }),
          execRun := fun _ => Except.ok "out" } =
      RunReturn.runFailed
        ("run failed: " ++ errToString (Err.attributeError "str" "get")) := by
  rfl

/-- C9: the Deterministic Code Tool entry point never raises: an error
from the workitem lookup, the code generation or the code execution is
caught and answered as a `run failed: <error>` value, a missing workitem
or missing `proc_def_id`/`activity_id` is answered as a structured JSON
error object, and even the compensation path's unconditional
AttributeError is caught by the same handler. -/
theorem dcRun_never_raises (todoId action : String) (w : DcWorld) :
    (∀ e, w.workitem = .error e →
      dcRun todoId action w =
        .runFailed ("run failed: " ++ errToString e)) ∧
    (w.workitem = .ok none →
      dcRun todoId action w =
        .jsonError ("todolist not found for todo_id=" ++ todoId)) ∧
    (∀ wi, w.workitem = .ok (some wi) →
      (!(strTruthy wi.procDefId) || !(strTruthy wi.activityId)) = true →
      dcRun todoId action w =
        .jsonError "proc def id or activity id missing in todolist") ∧
    (∀ wi e, w.workitem = .ok (some wi) →
      strTruthy wi.procDefId = true → strTruthy wi.activityId = true →
      action = "generate" → w.generate = .error e →
      dcRun todoId action w =
        .runFailed ("run failed: " ++ errToString e)) ∧
    (∀ wi e, w.workitem = .ok (some wi) →
      strTruthy wi.procDefId = true → strTruthy wi.activityId = true →
      action ≠ "generate" → w.existedCode = .error e →
      dcRun todoId action w =
        .runFailed ("run failed: " ++ errToString e)) ∧
    (∀ wi c e, w.workitem = .ok (some wi) →
      strTruthy wi.procDefId = true → strTruthy wi.activityId = true →
      action ≠ "generate" → w.existedCode = .ok (some c) →
      ¬ wi.reworkCount > 0 → w.execRun false = .error e →
      dcRun todoId action w =
        .runFailed ("run failed: " ++ errToString e)) ∧
    (∀ wi c e, w.workitem = .ok (some wi) →
      strTruthy wi.procDefId = true → strTruthy wi.activityId = true →
      action ≠ "generate" → w.existedCode = .ok (some c) →
      wi.reworkCount > 0 → w.execRun true = .error e →
      dcRun todoId action w =
        .runFailed ("run failed: " ++ errToString e)) ∧
    (∀ wi c s t, w.workitem = .ok (some wi) →
      strTruthy wi.procDefId = true → strTruthy wi.activityId = true →
      action ≠ "generate" → w.existedCode = .ok (some c) →
      wi.reworkCount > 0 → w.execRun true = .ok s → w.execRun false = .ok t →
      dcRun todoId action w =
        .runFailed
          ("run failed: " ++ errToString (Err.attributeError "str" "get"))) := by
  refine ⟨?_, ?_, ?_, ?_, ?_, ?_, ?_, ?_⟩
  · intro e h
    simp [dcRun, dcRunBody, h, Bind.bind, Except.bind]
  · intro h
    simp [dcRun, dcRunBody, h, Bind.bind, Except.bind, Pure.pure, Except.pure]
  · intro wi h hmiss
    simp only [Bool.or_eq_true, Bool.not_eq_true', Bool.not_eq_true] at hmiss
    rcases hmiss with hm | hm <;>
      simp [dcRun, dcRunBody, h, hm, Bind.bind, Except.bind, Pure.pure,
        Except.pure]
  · intro wi e h hp ha hact hg
    simp [dcRun, dcRunBody, h, hp, ha, hact, hg, Bind.bind, Except.bind,
      Pure.pure, Except.pure, Functor.map, Except.map]
  · intro wi e h hp ha hact hc
    simp [dcRun, dcRunBody, h, hp, ha, hact, hc, Bind.bind, Except.bind,
      Pure.pure, Except.pure, Functor.map, Except.map]
  · intro wi c e h hp ha hact hc hrw hx
    simp [dcRun, dcRunBody, h, hp, ha, hact, hc, hrw, hx, Bind.bind,
      Except.bind, Pure.pure, Except.pure, Functor.map, Except.map]
  · intro wi c e h hp ha hact hc hrw hx
    simp [dcRun, dcRunBody, h, hp, ha, hact, hc, hrw, hx, Bind.bind,
      Except.bind, Pure.pure, Except.pure, Functor.map, Except.map]
  · intro wi c s t h hp ha hact hc hrw hx hy
    simp [dcRun, dcRunBody, h, hp, ha, hact, hc, hrw, hx, hy, strGet,
      Bind.bind, Except.bind, Pure.pure, Except.pure, Functor.map,
      Except.map]

theorem dcRun_never_raises_witness :
    dcRun "t1" "execute"
        { initDb := Except.ok (),
          workitem := Except.error (Err.db "lookup down"),
          generate := Except.ok "p",
          existedCode := Except.ok none,
          execRun := fun _ => Except.ok "out" } =
      RunReturn.runFailed ("run failed: " ++ errToString (Err.db "lookup down")) ∧
    dcRun "t2" "execute"
        { initDb := Except.ok (),
          workitem := Except.ok none,
          generate := Except.ok "p",
          existedCode := Except.ok none,
          execRun := fun _ => Except.ok "out" } =
      RunReturn.jsonError "todolist not found for todo_id=t2" := by
  constructor
  · exact (dcRun_never_raises "t1" "execute" _).1 (Err.db "lookup down") rfl
  · exact (dcRun_never_raises "t2" "execute" _).2.1 rfl
